import Mathlib

/-!
Verification of the page-object / visual-regression layer of the
LisaAlert_tests repository (src/pages/base_page.py, src/features/steps/steps.py,
src/features/environment.py), shallowly embedded in Lean 4.

Conventions of the embedding:
* Images (PIL.Image) are a width, a height, and a pixel function indexed by
  position in row-major order; pixels are RGB triples of naturals (the code
  converts both images to "RGB" before diffing).
* The filesystem is a finite association list from path strings to images.
* Rational numbers stand in for Python floats.
* Exceptions are modelled with `Except String`.
-/

/-- An RGB pixel (each channel 0-255 in practice; the model does not need the
bound). -/
abbrev Pixel := ℕ × ℕ × ℕ

/-- An in-memory raster image: width, height and a row-major pixel function,
modelling a `PIL.Image` after `convert("RGB")`. -/
structure Img where
  width : ℕ
  height : ℕ
  px : ℕ → Pixel

/-- Luma component of the YIQ colour space, as computed by the pixelmatch
library (`rgb2y`), with the library's exact decimal coefficients as
rationals. -/
def rgb2y (p : Pixel) : ℚ :=
  (p.1 : ℚ) * (29889531 / 100000000) + (p.2.1 : ℚ) * (58662247 / 100000000)
    + (p.2.2 : ℚ) * (11448223 / 100000000)

/-- I chroma component (`rgb2i` of the pixelmatch library). -/
def rgb2i (p : Pixel) : ℚ :=
  (p.1 : ℚ) * (59597799 / 100000000) - (p.2.1 : ℚ) * (27417610 / 100000000)
    - (p.2.2 : ℚ) * (32180189 / 100000000)

/-- Q chroma component (`rgb2q` of the pixelmatch library). -/
def rgb2q (p : Pixel) : ℚ :=
  (p.1 : ℚ) * (21147017 / 100000000) - (p.2.1 : ℚ) * (52261711 / 100000000)
    + (p.2.2 : ℚ) * (31114694 / 100000000)

/-- Squared weighted YIQ colour distance between two pixels, as computed by
the pixelmatch library (`color_delta`); identical pixels are short-circuited
to distance 0 exactly as the library skips byte-identical pixels. -/
def colorDelta (p q : Pixel) : ℚ :=
  if p = q then 0
  else
    let y := rgb2y p - rgb2y q
    let i := rgb2i p - rgb2i q
    let qq := rgb2q p - rgb2q q
    (5053 / 10000) * (y * y) + (299 / 1000) * (i * i) + (1957 / 10000) * (qq * qq)

/-- The maximum acceptable colour distance for a given threshold:
`35215 * threshold ** 2` in the pixelmatch library. -/
def maxDelta (threshold : ℚ) : ℚ := 35215 * (threshold * threshold)

/-- Modelled external collaborator: the mismatch count returned by
`pixelmatch(actual, expected, diff, threshold=threshold)` — the number of
pixel positions whose colour distance strictly exceeds `maxDelta threshold`.
(The library's anti-aliasing detection is off by default and does not depend
on the threshold, so it is omitted; it only ever removes threshold-independent
positions from the count.) -/
def pixelmatchCount (actual expected : Img) (threshold : ℚ) : ℕ :=
  (List.range (actual.width * actual.height)).countP
    (fun k => decide (maxDelta threshold < colorDelta (actual.px k) (expected.px k)))

/-- A filesystem: a finite map from path strings to stored images. -/
structure FS where
  files : List (String × Img)

/-- `os.path.exists` / `Image.open` on the modelled filesystem. -/
def FS.lookup (fs : FS) (path : String) : Option Img :=
  fs.files.lookup path

/-- `image.save(path)` on the modelled filesystem. -/
def FS.insert (fs : FS) (path : String) (img : Img) : FS :=
  ⟨(path, img) :: fs.files⟩

/-- Result of one `BasePage.compare_screenshots` invocation: the list of diff
image paths written during the call, and either the returned boolean or the
message of the raised exception. -/
structure CompareResult where
  diffWrites : List String
  result : Except String Bool

/-- `BasePage.compare_screenshots(actual_image, expected_image_path, threshold,
save_diff)`: opens the reference image, raises `ValueError` on a size
mismatch, otherwise runs pixelmatch with `threshold` as colour threshold,
saves `diff.png` when `save_diff` is set, and returns whether
`mismatch / (width * height) <= threshold`. -/
def compare_screenshots (fs : FS) (actual_image : Img) (expected_image_path : String)
    (threshold : ℚ) (save_diff : Bool) : CompareResult :=
  match fs.lookup expected_image_path with
  | none => ⟨[], .error "FileNotFoundError"⟩
  | some expected_image =>
    if (actual_image.width, actual_image.height) ≠ (expected_image.width, expected_image.height) then
      ⟨[], .error "Размеры изображений не совпадают!"⟩
    else
      let mismatch := pixelmatchCount actual_image expected_image threshold
      let diffWrites := if save_diff then ["diff.png"] else []
      ⟨diffWrites,
       .ok (decide ((mismatch : ℚ) / ((actual_image.width * actual_image.height : ℕ) : ℚ)
          ≤ threshold))⟩

/-- The reference-image path built by the screenshot step:
`os.path.join("screenshots", "expected", expected_image)`. -/
def expectedPathOf (expected_image : String) : String :=
  "screenshots/expected/" ++ expected_image

/-- `step_compare_screenshot_with_expected(context, expected_image, threshold)`
from src/features/steps/steps.py: takes the current screenshot, saves it as
the new reference and fails with the rerun message when no reference exists,
otherwise compares against the reference (with `save_diff=True`) and asserts
the comparison result.  The current capture is passed in as `currentShot`
(the value of `context.page.take_screenshot(...)`); the returned pair is the
filesystem after the step and the step's outcome (`.ok ()` for a passing
step, `.error` for a raised `AssertionError`/`ValueError`). -/
def step_compare_screenshot_with_expected (fs : FS) (currentShot : Img)
    (expected_image : String) (threshold : ℚ) : FS × Except String Unit :=
  let expected_path := expectedPathOf expected_image
  if (fs.lookup expected_path).isNone then
    (fs.insert expected_path currentShot,
     .error ("Эталон " ++ expected_image ++ " создан. Повторите тест для проверки."))
  else
    match (compare_screenshots fs currentShot expected_path threshold true).result with
    | .ok true => (fs, .ok ())
    | .ok false => (fs, .error "Визуальные различия превышают порог")
    | .error e => (fs, .error e)

/-- A Selenium locator: an immutable `(strategy, selector)` pair. -/
structure Locator where
  strategy : String
  selector : String
deriving DecidableEq

/-- The textual rendering of a locator inside error messages (the `{locator}`
interpolation of the Python f-strings). -/
def locatorRepr (l : Locator) : String :=
  "(" ++ l.strategy ++ ", " ++ l.selector ++ ")"

/-- An opaque remote element handle. -/
structure Element where
  id : ℕ
deriving DecidableEq

/-- The remote browser session, observed through the expected-condition
predicates the page object polls.  Time is measured in polling ticks of
Selenium's default 0.5-second poll frequency, so a timeout of `T` seconds
allows checks at ticks `0, 1, …, 2*T`.
`visibleAt t l` is the element `visibility_of_element_located l` yields at
tick `t` (`none` when the condition is falsy), `allPresentAt t l` the list
`presence_of_all_elements_located l` yields, and `clickableAt t l` the
element `element_to_be_clickable l` yields. -/
structure Driver where
  visibleAt : ℕ → Locator → Option Element
  allPresentAt : ℕ → Locator → List Element
  clickableAt : ℕ → Locator → Option Element

/-- `WebDriverWait(driver, timeout).until(cond, message=msg)`: evaluate the
condition at each polling tick until it yields a truthy value; once the
timeout has elapsed (the last check happens at the last tick not past the
deadline), raise `TimeoutException(msg)`. -/
def webDriverWaitUntil {α : Type} (cond : ℕ → Option α) (timeoutSec : ℕ)
    (msg : String) : Except String α :=
  match (List.range (2 * timeoutSec + 1)).findSome? cond with
  | some v => .ok v
  | none => .error msg

/-- The page object: a driver plus the default explicit-wait timeout
(`BasePage.__init__`, default 10 seconds). -/
structure BasePage where
  driver : Driver
  timeout : ℕ

/-- `timeout = timeout or self.timeout`: a `None` argument — and, through
Python falsiness, an explicit `0` — falls back to the page default. -/
def resolveTimeout (p : BasePage) (timeout : Option ℕ) : ℕ :=
  match timeout with
  | some t => if t = 0 then p.timeout else t
  | none => p.timeout

/-- `BasePage.wait_and_find_element(locator, timeout)`: wait for
`visibility_of_element_located`. -/
def wait_and_find_element (p : BasePage) (locator : Locator)
    (timeout : Option ℕ) : Except String Element :=
  let T := resolveTimeout p timeout
  webDriverWaitUntil (fun t => p.driver.visibleAt t locator) T
    ("Элемент " ++ locatorRepr locator ++ " не стал видимым за " ++ toString T ++ " сек")

/-- `BasePage.wait_and_find_elements(locator, timeout)`: wait for
`presence_of_all_elements_located`; an empty list is falsy, so the wait keeps
polling until the list is non-empty. -/
def wait_and_find_elements (p : BasePage) (locator : Locator)
    (timeout : Option ℕ) : Except String (List Element) :=
  let T := resolveTimeout p timeout
  webDriverWaitUntil
    (fun t => match p.driver.allPresentAt t locator with
      | [] => none
      | es => some es) T
    ("Элементы " ++ locatorRepr locator ++ " не найдены за " ++ toString T ++ " сек")

/-- `BasePage.wait_for_clickable(locator, timeout)`: wait for
`element_to_be_clickable`. -/
def wait_for_clickable (p : BasePage) (locator : Locator)
    (timeout : Option ℕ) : Except String Element :=
  let T := resolveTimeout p timeout
  webDriverWaitUntil (fun t => p.driver.clickableAt t locator) T
    ("Элемент " ++ locatorRepr locator ++ " не стал кликабельным за " ++ toString T ++ " сек")

/-- Outcome of one attempt of `self.wait_for_clickable(locator, timeout).click()`
inside `BasePage.click_element`: the click succeeded, the element handle was
stale (`StaleElementReferenceException`), or some other exception was raised
(for example a `TimeoutException` from the wait itself). -/
inductive ClickOutcome
  | clicked
  | stale
  | failed (msg : String)
deriving DecidableEq

/-- The behaviour of the remote session under successive resolve-and-click
attempts for one locator: `attempt n` is the outcome of the `n`-th attempt
(counting from 0). -/
structure ClickDriver where
  attempt : ℕ → ClickOutcome

/-- `BasePage.click_element(locator, timeout)`: try one resolve-and-click; a
`StaleElementReferenceException` triggers exactly one more resolve-and-click,
whose own exception (stale or otherwise) propagates; any other first-attempt
exception propagates immediately.  Returns the number of attempts made and
the outcome. -/
def click_element (d : ClickDriver) : ℕ × Except String Unit :=
  match d.attempt 0 with
  | .clicked => (1, .ok ())
  | .failed m => (1, .error m)
  | .stale =>
    match d.attempt 1 with
    | .clicked => (2, .ok ())
    | .failed m => (2, .error m)
    | .stale => (2, .error "StaleElementReferenceException")

/-- The apostrophe character, used when assembling XPath string literals. -/
def apos : String := String.singleton (Char.ofNat 39)

/-- The XPath built by `BasePage.is_text_present`: exact match uses
`//*[text()=...]`, partial match uses `//*[contains(text(), ...)]`. -/
def textXPath (text : String) (exact_match : Bool) : String :=
  if exact_match then "//*[text()=" ++ apos ++ text ++ apos ++ "]"
  else "//*[contains(text(), " ++ apos ++ text ++ apos ++ ")]"

/-- `BasePage.is_text_present(text, exact_match, timeout)`: wait for the
text-matching XPath locator to become visible; return `true` on success and,
on timeout, attach a diagnostic screenshot and return `false`.  The result is
the returned boolean paired with the names of the Allure attachments made. -/
def is_text_present (p : BasePage) (text : String) (exact_match : Bool)
    (timeout : Option ℕ) : Bool × List String :=
  let T := resolveTimeout p timeout
  let locator : Locator := ⟨"xpath", textXPath text exact_match⟩
  match webDriverWaitUntil (fun t => p.driver.visibleAt t locator) T
      ("Текст " ++ apos ++ text ++ apos ++ " не найден за " ++ toString T ++ " сек") with
  | .ok _ => (true, [])
  | .error _ => (false, ["text_not_found_" ++ text])

/-- `BasePage.is_text_not_present(text, exact_match, timeout)`:
`return not self.is_text_present(text, exact_match, timeout)`. -/
def is_text_not_present (p : BasePage) (text : String) (exact_match : Bool)
    (timeout : Option ℕ) : Bool :=
  !(is_text_present p text exact_match timeout).1

/-- The session as observed by `BasePage.wait_for_full_page_load`: the
document ready state and the AJAX-tracker script result over polling ticks,
the `find_elements` answer and per-element visibility for the structural
landmark probes, and the two `document.body.scrollHeight` samples taken
before and after the one-second sleep of the stability check. -/
structure PageDriver where
  readyState : ℕ → String
  ajaxDone : ℕ → Bool
  landmarkElems : String → List Element
  landmarkVisibleAt : ℕ → Element → Bool
  heightBefore : ℕ
  heightAfter : ℕ

/-- The fixed landmark selector list of `wait_for_full_page_load`
(`structural_elements`). -/
def structuralElements : List (String × String) :=
  [("body", "tag name"),
   ("main, .main, [role=\"main\"]", "css selector"),
   ("header, .header", "css selector"),
   ("footer, .footer", "css selector")]

/-- `BasePage.wait_for_full_page_load(timeout)`: (1) wait for
`document.readyState == "complete"`; (2) wait for the AJAX trackers inside an
inner `try/except: pass`, so its failure is swallowed; (3) for each structural
selector, find elements and wait (5 s) for the first to be visible, inside
`try/except: continue`, so each failure is swallowed; (4) sample the body
scroll height, sleep one second, re-sample, and assert equality.  The whole
body sits in an outer `try`, whose handler takes a `page_load_failed`
screenshot and re-raises `AssertionError("Ошибка загрузки страницы: ...")` —
so a step-1 timeout or a step-4 assertion both end there.  Returns the list
of screenshot names taken and either `true` or the raised error. -/
def wait_for_full_page_load (d : PageDriver) (timeout : ℕ) :
    List String × Except String Bool :=
  match webDriverWaitUntil
      (fun t => if d.readyState t = "complete" then some () else none) timeout
      ("Документ не перешел в состояние " ++ apos ++ "complete" ++ apos) with
  | .error e => (["page_load_failed"], .error ("Ошибка загрузки страницы: " ++ e))
  | .ok _ =>
    let _ajax := webDriverWaitUntil
      (fun t => if d.ajaxDone t then some () else none) timeout
      "AJAX-запросы не завершились"
    let _landmarks := structuralElements.map (fun s =>
      match d.landmarkElems s.1 with
      | [] => Except.ok ()
      | e :: _ => webDriverWaitUntil
          (fun t => if d.landmarkVisibleAt t e then some () else none) 5
          ("Структурный элемент " ++ s.1 ++ " не виден"))
    if d.heightBefore = d.heightAfter then ([], .ok true)
    else (["page_load_failed"], .error "Ошибка загрузки страницы: DOM не стабилен")

/-- A live browser session, recording whether `driver.quit()` has been
called on it. -/
structure Session where
  quitCalled : Bool
deriving DecidableEq

/-- The per-scenario behave context, as far as the teardown hook observes it:
`hasattr(context, "driver")` is `driver.isSome`. -/
structure BContext where
  driver : Option Session

/-- `after_scenario(context, scenario)` from src/features/environment.py:
quit the driver when the context has one, otherwise do nothing. -/
def after_scenario (ctx : BContext) : BContext :=
  match ctx.driver with
  | some _ => ⟨some ⟨true⟩⟩
  | none => ctx

/-- Modelled from the spec: the BDD scenario runner (an external
collaborator) invokes the `after_scenario` hook at scenario end on every exit
path, whatever the outcome of the steps — including when a step failed an
assertion.  `stepsOutcome` is the scenario body's outcome; the runner's
result pairs the context after teardown with that outcome. -/
def runScenarioEnd (ctx : BContext) (stepsOutcome : Except String Unit) :
    BContext × Except String Unit :=
  (after_scenario ctx, stepsOutcome)

section Helpers

theorem findSome?_eq_none_iff {α β : Type} (f : α → Option β) (l : List α) :
    l.findSome? f = none ↔ ∀ a ∈ l, f a = none := by
  induction l with
  | nil => simp
  | cons x xs ih =>
    cases h : f x <;> simp [List.findSome?_cons, h, ih]

theorem exists_ok_of_findSome? {α β : Type} (f : α → Option β) (l : List α)
    (h : ∃ a ∈ l, (f a).isSome) : ∃ b, l.findSome? f = some b := by
  cases hf : l.findSome? f with
  | some b => exact ⟨b, rfl⟩
  | none =>
    obtain ⟨a, ha, hs⟩ := h
    rw [findSome?_eq_none_iff] at hf
    rw [hf a ha] at hs
    simp at hs

theorem webDriverWaitUntil_ok {α : Type} (cond : ℕ → Option α) (T : ℕ) (msg : String)
    (h : ∃ k, k ≤ 2 * T ∧ (cond k).isSome) :
    ∃ v, webDriverWaitUntil cond T msg = .ok v := by
  obtain ⟨k, hk, hs⟩ := h
  obtain ⟨b, hb⟩ := exists_ok_of_findSome? cond (List.range (2 * T + 1))
    ⟨k, by simpa using Nat.lt_succ_of_le hk, hs⟩
  exact ⟨b, by simp [webDriverWaitUntil, hb]⟩

theorem webDriverWaitUntil_error {α : Type} (cond : ℕ → Option α) (T : ℕ) (msg : String)
    (h : ∀ k, k ≤ 2 * T → cond k = none) :
    webDriverWaitUntil cond T msg = .error msg := by
  have hnone : (List.range (2 * T + 1)).findSome? cond = none := by
    rw [findSome?_eq_none_iff]
    intro a ha
    exact h a (Nat.lt_succ_iff.mp (List.mem_range.mp ha))
  simp [webDriverWaitUntil, hnone]

theorem pixelmatchCount_eq_zero_of_ident (act expd : Img) (t : ℚ) (h0 : 0 ≤ t)
    (hident : ∀ k, k < act.width * act.height → act.px k = expd.px k) :
    pixelmatchCount act expd t = 0 := by
  unfold pixelmatchCount
  rw [List.countP_eq_zero]
  intro k hk
  rw [List.mem_range] at hk
  rw [hident k hk]
  simp only [colorDelta, if_pos rfl, decide_eq_true_eq, not_lt, maxDelta]
  positivity

theorem FS.lookup_insert (fs : FS) (path : String) (img : Img) :
    (fs.insert path img).lookup path = some img := by
  simp [FS.insert, FS.lookup, List.lookup]

end Helpers

/-- Claim C1: for a same-size actual/reference pair and any tolerance
`0 ≤ t ≤ 1`, `compare_screenshots` returns `true` exactly when the pixelmatch
mismatch count divided by the total pixel count is at most `t`; in
particular, against a pixel-identical reference it returns `true` for every
`t ≥ 0`.  (The image must be non-empty: on a zero-pixel image the Python
code would raise `ZeroDivisionError` instead of returning a boolean.) -/
theorem compare_screenshots_threshold_iff (fs : FS) (path : String)
    (act expd : Img) (t : ℚ) (sd : Bool)
    (hfs : fs.lookup path = some expd)
    (hw : act.width = expd.width) (hh : act.height = expd.height)
    (hpos : 0 < act.width * act.height) (h0 : 0 ≤ t) (h1 : t ≤ 1) :
    ((compare_screenshots fs act path t sd).result =
      .ok (decide ((pixelmatchCount act expd t : ℚ)
        / ((act.width * act.height : ℕ) : ℚ) ≤ t))) ∧
    ((∀ k, k < act.width * act.height → act.px k = expd.px k) →
      (compare_screenshots fs act path t sd).result = .ok true) := by
  have hres : (compare_screenshots fs act path t sd).result =
      .ok (decide ((pixelmatchCount act expd t : ℚ)
        / ((act.width * act.height : ℕ) : ℚ) ≤ t)) := by
    simp [compare_screenshots, hfs, hw, hh]
  refine ⟨hres, fun hident => ?_⟩
  rw [hres, pixelmatchCount_eq_zero_of_ident act expd t h0 hident]
  simp [h0]

/-- A concrete 1-by-1 black image used by the concrete instances below. -/
def imgW : Img := ⟨1, 1, fun _ => (0, 0, 0)⟩

/-- A concrete filesystem holding `imgW` as the reference `main.png`. -/
def fsW : FS := ⟨[("screenshots/expected/main.png", imgW)]⟩

/-- An empty filesystem. -/
def fsEmpty : FS := ⟨[]⟩

/-- Witness for C1: comparing the 1-by-1 image against its byte-identical
stored reference at tolerance 1/2 returns `true`. -/
theorem compare_screenshots_threshold_iff_witness :
    (compare_screenshots fsW imgW "screenshots/expected/main.png" (1/2) true).result =
      .ok true :=
  (compare_screenshots_threshold_iff fsW "screenshots/expected/main.png" imgW imgW
    (1/2) true rfl rfl rfl (by decide) (by norm_num) (by norm_num)).2 (fun _ _ => rfl)

/-- Claim C3: when the reference exists but its pixel dimensions differ from
the actual image's, `compare_screenshots` raises `ValueError` ("Размеры
изображений не совпадают!"); the result is a constant — no pixel is read, no
diff image is written. -/
theorem compare_screenshots_size_mismatch (fs : FS) (path : String)
    (act expd : Img) (t : ℚ) (sd : Bool)
    (hfs : fs.lookup path = some expd)
    (hsize : (act.width, act.height) ≠ (expd.width, expd.height)) :
    compare_screenshots fs act path t sd =
      ⟨[], .error "Размеры изображений не совпадают!"⟩ := by
  simp [compare_screenshots, hfs, hsize]

/-- A concrete 2-by-1 image of the same pixel data as `imgW`. -/
def imgWide : Img := ⟨2, 1, fun _ => (0, 0, 0)⟩

/-- Witness for C3: a 2-by-1 capture against the stored 1-by-1 reference
raises the size-mismatch error. -/
theorem compare_screenshots_size_mismatch_witness :
    compare_screenshots fsW imgWide "screenshots/expected/main.png" (1/10) true =
      ⟨[], .error "Размеры изображений не совпадают!"⟩ :=
  compare_screenshots_size_mismatch fsW "screenshots/expected/main.png" imgWide imgW
    (1/10) true rfl (by decide)

/-- Claim C10: the single `threshold` argument of `compare_screenshots` is
simultaneously the per-pixel colour threshold handed to pixelmatch and the
upper bound on the normalized mismatch ratio (first conjunct: the same `t`
appears in both roles of the returned decision), and lowering it can only
increase the per-pixel mismatch count (second conjunct: the count is
antitone in the threshold). -/
theorem tolerance_single_knob (fs : FS) (path : String) (act expd : Img)
    (t : ℚ) (sd : Bool)
    (hfs : fs.lookup path = some expd)
    (hw : act.width = expd.width) (hh : act.height = expd.height) :
    ((compare_screenshots fs act path t sd).result =
      .ok (decide ((pixelmatchCount act expd t : ℚ)
        / ((act.width * act.height : ℕ) : ℚ) ≤ t))) ∧
    (∀ t1 t2 : ℚ, 0 ≤ t1 → t1 ≤ t2 →
      pixelmatchCount act expd t2 ≤ pixelmatchCount act expd t1) := by
  refine ⟨by simp [compare_screenshots, hfs, hw, hh], fun t1 t2 h0 h12 => ?_⟩
  unfold pixelmatchCount
  apply List.countP_mono_left
  intro k _
  simp only [decide_eq_true_eq]
  intro hlt
  have hmax : maxDelta t1 ≤ maxDelta t2 := by
    unfold maxDelta
    nlinarith
  exact lt_of_le_of_lt hmax hlt

/-- Witness for C10: at the concrete stored reference, raising the threshold
from 0 to 1 does not increase the mismatch count. -/
theorem tolerance_single_knob_witness :
    pixelmatchCount imgW imgW 1 ≤ pixelmatchCount imgW imgW 0 :=
  (tolerance_single_knob fsW "screenshots/expected/main.png" imgW imgW 0 true
    rfl rfl rfl).2 0 1 le_rfl zero_le_one

/-- Counterexample to claim C8 as stated: a *passing* same-size comparison
(identical 1-by-1 images, tolerance 1, `save_diff=True` as the step layer
always passes it) still writes the diff image — the code saves `diff.png`
before the pass/fail decision, so persistence is not restricted to failing
comparisons. -/
theorem diff_written_on_passing_comparison :
    (compare_screenshots fsW imgW "screenshots/expected/main.png" 1 true).result =
      .ok true ∧
    (compare_screenshots fsW imgW "screenshots/expected/main.png" 1 true).diffWrites =
      ["diff.png"] := by
  have hz := pixelmatchCount_eq_zero_of_ident imgW imgW 1 (by norm_num)
    (fun _ _ => rfl)
  have hlk : fsW.lookup "screenshots/expected/main.png" = some imgW := rfl
  constructor
  · simp [compare_screenshots, hlk, hz]
  · simp [compare_screenshots, hlk]

/-- Claim C8 as amended: a diff image is written exactly when the comparison
is invoked with `save_diff` set and the images have equal sizes — that is, on
every same-size comparison, passing or failing alike (the step layer always
passes `save_diff=True`); never on a missing reference or a size mismatch. -/
theorem diff_written_iff_same_size_and_save (fs : FS) (act : Img) (path : String)
    (t : ℚ) (sd : Bool) :
    (compare_screenshots fs act path t sd).diffWrites ≠ [] ↔
      (sd = true ∧ ∃ expd, fs.lookup path = some expd ∧
        (act.width, act.height) = (expd.width, expd.height)) := by
  cases hfs : fs.lookup path with
  | none => simp [compare_screenshots, hfs]
  | some expd =>
    by_cases hsz : (act.width, act.height) = (expd.width, expd.height)
    · cases sd <;> simp [compare_screenshots, hfs, hsz]
    · simp [compare_screenshots, hfs, hsz]
      intro _ h1 h2
      exact hsz (by rw [h1, h2])

/-- Claim C2: when no reference file exists for the requested name, the
screenshot step saves the current capture at the reference path (hence a
reference of identical pixel dimensions to the capture now exists) and fails
with the "Эталон … создан. Повторите тест" message — it never passes. -/
theorem step_creates_reference_and_fails (fs : FS) (shot : Img) (name : String)
    (t : ℚ) (h : fs.lookup (expectedPathOf name) = none) :
    (step_compare_screenshot_with_expected fs shot name t =
      (fs.insert (expectedPathOf name) shot,
       .error ("Эталон " ++ name ++ " создан. Повторите тест для проверки."))) ∧
    (∃ saved, (step_compare_screenshot_with_expected fs shot name t).1.lookup
        (expectedPathOf name) = some saved ∧
      saved.width = shot.width ∧ saved.height = shot.height) ∧
    (step_compare_screenshot_with_expected fs shot name t).2 ≠ .ok () := by
  have hstep : step_compare_screenshot_with_expected fs shot name t =
      (fs.insert (expectedPathOf name) shot,
       .error ("Эталон " ++ name ++ " создан. Повторите тест для проверки.")) := by
    simp [step_compare_screenshot_with_expected, h]
  refine ⟨hstep, ⟨shot, ?_, rfl, rfl⟩, ?_⟩
  · rw [hstep]
    exact FS.lookup_insert fs (expectedPathOf name) shot
  · rw [hstep]
    simp

/-- Witness for C2: on an empty filesystem the step does not pass. -/
theorem step_creates_reference_and_fails_witness :
    (step_compare_screenshot_with_expected fsEmpty imgW "main.png" (1/10)).2 ≠ .ok () :=
  (step_creates_reference_and_fails fsEmpty imgW "main.png" (1/10) rfl).2.2

/-- Claim C4: `click_element` makes at most two resolve-and-click attempts;
when the first attempt raises a stale-element error the locator is re-resolved
and clicked exactly once more (the second attempt's success is the call's
success), and a second consecutive stale-element error — or any other error
of the second attempt — propagates to the caller with no further retry; a
clean first click makes exactly one attempt. -/
theorem click_element_retries_exactly_once (d : ClickDriver) :
    ((click_element d).1 ≤ 2) ∧
    (d.attempt 0 = .stale → d.attempt 1 = .clicked → click_element d = (2, .ok ())) ∧
    (d.attempt 0 = .stale → d.attempt 1 = .stale →
      click_element d = (2, .error "StaleElementReferenceException")) ∧
    (∀ m, d.attempt 0 = .stale → d.attempt 1 = .failed m →
      click_element d = (2, .error m)) ∧
    (d.attempt 0 = .clicked → click_element d = (1, .ok ())) := by
  cases h0 : d.attempt 0 <;> cases h1 : d.attempt 1 <;>
    simp [click_element, h0, h1]

/-- A click driver whose first attempt is stale and whose second succeeds. -/
def staleOnceDriver : ClickDriver := ⟨fun n => if n = 0 then .stale else .clicked⟩

/-- Witness for C4: one staleness followed by a clean click succeeds in
exactly two attempts. -/
theorem click_element_retries_exactly_once_witness :
    click_element staleOnceDriver = (2, .ok ()) :=
  (click_element_retries_exactly_once staleOnceDriver).2.1 rfl rfl

/-- Claim C5: each wait primitive (`wait_and_find_element`,
`wait_and_find_elements`, `wait_for_clickable`) returns the matched
element(s) whenever its predicate is satisfied at some polling tick up to and
including the last tick before the deadline (`2 * T` half-second ticks for an
effective timeout of `T` seconds), and otherwise raises a timeout error whose
message spells out the locator and the wait duration. -/
theorem wait_primitives_return_or_timeout (p : BasePage) (l : Locator)
    (t : Option ℕ) :
    ((∃ k, k ≤ 2 * resolveTimeout p t ∧ (p.driver.visibleAt k l).isSome) →
      ∃ e, wait_and_find_element p l t = .ok e) ∧
    ((∀ k, k ≤ 2 * resolveTimeout p t → p.driver.visibleAt k l = none) →
      wait_and_find_element p l t =
        .error ("Элемент " ++ locatorRepr l ++ " не стал видимым за "
          ++ toString (resolveTimeout p t) ++ " сек")) ∧
    ((∃ k, k ≤ 2 * resolveTimeout p t ∧ p.driver.allPresentAt k l ≠ []) →
      ∃ es, wait_and_find_elements p l t = .ok es) ∧
    ((∀ k, k ≤ 2 * resolveTimeout p t → p.driver.allPresentAt k l = []) →
      wait_and_find_elements p l t =
        .error ("Элементы " ++ locatorRepr l ++ " не найдены за "
          ++ toString (resolveTimeout p t) ++ " сек")) ∧
    ((∃ k, k ≤ 2 * resolveTimeout p t ∧ (p.driver.clickableAt k l).isSome) →
      ∃ e, wait_for_clickable p l t = .ok e) ∧
    ((∀ k, k ≤ 2 * resolveTimeout p t → p.driver.clickableAt k l = none) →
      wait_for_clickable p l t =
        .error ("Элемент " ++ locatorRepr l ++ " не стал кликабельным за "
          ++ toString (resolveTimeout p t) ++ " сек")) := by
  refine ⟨fun h => ?_, fun h => ?_, fun h => ?_, fun h => ?_, fun h => ?_, fun h => ?_⟩
  · exact webDriverWaitUntil_ok _ _ _ h
  · exact webDriverWaitUntil_error _ _ _ h
  · refine webDriverWaitUntil_ok _ _ _ ?_
    obtain ⟨k, hk, hne⟩ := h
    refine ⟨k, hk, ?_⟩
    cases hp : p.driver.allPresentAt k l with
    | nil => exact absurd hp hne
    | cons e es => simp [hp]
  · refine webDriverWaitUntil_error _ _ _ (fun k hk => ?_)
    simp [h k hk]
  · exact webDriverWaitUntil_ok _ _ _ h
  · exact webDriverWaitUntil_error _ _ _ h

/-- A driver where every condition holds from the first poll. -/
def allReadyDriver : Driver :=
  ⟨fun _ _ => some ⟨1⟩, fun _ _ => [⟨2⟩], fun _ _ => some ⟨3⟩⟩

/-- A driver where no condition ever holds. -/
def neverReadyDriver : Driver :=
  ⟨fun _ _ => none, fun _ _ => [], fun _ _ => none⟩

/-- A concrete locator. -/
def bodyLocator : Locator := ⟨"xpath", "//body"⟩

/-- Witness for C5: on a driver satisfying every condition at the first poll
all three primitives return, and on a driver never satisfying them all three
raise the timeout message naming the locator and the three-second wait. -/
theorem wait_primitives_return_or_timeout_witness :
    (∃ e, wait_and_find_element ⟨allReadyDriver, 10⟩ bodyLocator none = .ok e) ∧
    (∃ es, wait_and_find_elements ⟨allReadyDriver, 10⟩ bodyLocator none = .ok es) ∧
    (∃ e, wait_for_clickable ⟨allReadyDriver, 10⟩ bodyLocator none = .ok e) ∧
    (wait_and_find_element ⟨neverReadyDriver, 10⟩ bodyLocator (some 3) =
      .error ("Элемент " ++ locatorRepr bodyLocator ++ " не стал видимым за "
        ++ toString (resolveTimeout ⟨neverReadyDriver, 10⟩ (some 3)) ++ " сек")) ∧
    (wait_and_find_elements ⟨neverReadyDriver, 10⟩ bodyLocator (some 3) =
      .error ("Элементы " ++ locatorRepr bodyLocator ++ " не найдены за "
        ++ toString (resolveTimeout ⟨neverReadyDriver, 10⟩ (some 3)) ++ " сек")) ∧
    (wait_for_clickable ⟨neverReadyDriver, 10⟩ bodyLocator (some 3) =
      .error ("Элемент " ++ locatorRepr bodyLocator ++ " не стал кликабельным за "
        ++ toString (resolveTimeout ⟨neverReadyDriver, 10⟩ (some 3)) ++ " сек")) :=
  ⟨(wait_primitives_return_or_timeout ⟨allReadyDriver, 10⟩ bodyLocator none).1
     ⟨0, Nat.zero_le _, rfl⟩,
   (wait_primitives_return_or_timeout ⟨allReadyDriver, 10⟩ bodyLocator none).2.2.1
     ⟨0, Nat.zero_le _, by simp [allReadyDriver]⟩,
   (wait_primitives_return_or_timeout ⟨allReadyDriver, 10⟩ bodyLocator none).2.2.2.2.1
     ⟨0, Nat.zero_le _, rfl⟩,
   (wait_primitives_return_or_timeout ⟨neverReadyDriver, 10⟩ bodyLocator (some 3)).2.1
     (fun _ _ => rfl),
   (wait_primitives_return_or_timeout ⟨neverReadyDriver, 10⟩ bodyLocator (some 3)).2.2.2.1
     (fun _ _ => rfl),
   (wait_primitives_return_or_timeout ⟨neverReadyDriver, 10⟩ bodyLocator
     (some 3)).2.2.2.2.2 (fun _ _ => rfl)⟩

/-- Claim C6: `is_text_not_present` returns exactly the boolean negation of
`is_text_present` at the same text, exact-match flag and timeout (this is its
entire body: `return not self.is_text_present(text, exact_match, timeout)`). -/
theorem is_text_not_present_negates (p : BasePage) (text : String)
    (exact_match : Bool) (timeout : Option ℕ) :
    is_text_not_present p text exact_match timeout =
      !(is_text_present p text exact_match timeout).1 :=
  rfl

/-- A page driver whose document never reaches ready state "complete", while
everything later in the probe would succeed (no AJAX pending, no landmarks,
stable equal heights). -/
def stuckReadyDriver : PageDriver :=
  ⟨fun _ => "loading", fun _ => true, fun _ => [], fun _ _ => true, 100, 100⟩

/-- Counterexample to claim C7 as stated: the document ready-state wait is
NOT one of the swallowed steps.  On a driver whose ready state never becomes
"complete" — although the stability check would pass (the two height samples
are equal) — `wait_for_full_page_load` takes the `page_load_failed`
screenshot and re-raises instead of continuing the probe, because step 1 sits
inside the outer `try` whose handler converts any exception, not inside an
inner swallowing `try/except`. -/
theorem ready_state_failure_not_swallowed :
    stuckReadyDriver.heightBefore = stuckReadyDriver.heightAfter ∧
    wait_for_full_page_load stuckReadyDriver 15 =
      (["page_load_failed"],
       .error ("Ошибка загрузки страницы: "
         ++ ("Документ не перешел в состояние " ++ apos ++ "complete" ++ apos))) := by
  refine ⟨rfl, ?_⟩
  have herr := webDriverWaitUntil_error
    (fun t => if stuckReadyDriver.readyState t = "complete" then some () else none)
    15 ("Документ не перешел в состояние " ++ apos ++ "complete" ++ apos)
    (fun k _ => by simp [stuckReadyDriver])
  simp [wait_for_full_page_load, herr]

/-- Claim C7 as amended: in `wait_for_full_page_load` only the async-request
wait and the structural-landmark waits are best-effort (their observations
never affect the outcome); a failure of the *document ready-state wait*, like
a failure of the final DOM-height stability check, is converted into a
`page_load_failed` screenshot diagnostic and re-raised as a load failure, and
when the ready-state wait succeeds and the two height samples agree the probe
returns `true` with no diagnostic. -/
theorem page_load_error_flow (d : PageDriver) (T : ℕ) :
    (∀ d2 : PageDriver, d2.readyState = d.readyState →
      d2.heightBefore = d.heightBefore → d2.heightAfter = d.heightAfter →
      wait_for_full_page_load d2 T = wait_for_full_page_load d T) ∧
    ((∀ k, k ≤ 2 * T → d.readyState k ≠ "complete") →
      wait_for_full_page_load d T =
        (["page_load_failed"],
         .error ("Ошибка загрузки страницы: "
           ++ ("Документ не перешел в состояние " ++ apos ++ "complete" ++ apos)))) ∧
    ((∃ k, k ≤ 2 * T ∧ d.readyState k = "complete") →
      d.heightBefore ≠ d.heightAfter →
      wait_for_full_page_load d T =
        (["page_load_failed"], .error "Ошибка загрузки страницы: DOM не стабилен")) ∧
    ((∃ k, k ≤ 2 * T ∧ d.readyState k = "complete") →
      d.heightBefore = d.heightAfter →
      wait_for_full_page_load d T = ([], .ok true)) := by
  refine ⟨fun d2 hr hb ha => ?_, fun h => ?_, fun h hne => ?_, fun h heq => ?_⟩
  · rw [wait_for_full_page_load, wait_for_full_page_load, hr, hb, ha]
  · have herr := webDriverWaitUntil_error
      (fun t => if d.readyState t = "complete" then some () else none) T
      ("Документ не перешел в состояние " ++ apos ++ "complete" ++ apos)
      (fun k hk => by simp [h k hk])
    simp [wait_for_full_page_load, herr]
  · obtain ⟨v, hok⟩ := webDriverWaitUntil_ok
      (fun t => if d.readyState t = "complete" then some () else none) T
      ("Документ не перешел в состояние " ++ apos ++ "complete" ++ apos)
      (by obtain ⟨k, hk, hc⟩ := h; exact ⟨k, hk, by simp [hc]⟩)
    simp [wait_for_full_page_load, hok, hne]
  · obtain ⟨v, hok⟩ := webDriverWaitUntil_ok
      (fun t => if d.readyState t = "complete" then some () else none) T
      ("Документ не перешел в состояние " ++ apos ++ "complete" ++ apos)
      (by obtain ⟨k, hk, hc⟩ := h; exact ⟨k, hk, by simp [hc]⟩)
    simp [wait_for_full_page_load, hok, heq]

/-- A page driver that is immediately complete and stable. -/
def loadedDriver : PageDriver :=
  ⟨fun _ => "complete", fun _ => true, fun _ => [], fun _ _ => true, 50, 50⟩

/-- A page driver that is immediately complete but whose height samples
differ. -/
def shiftingDriver : PageDriver :=
  ⟨fun _ => "complete", fun _ => true, fun _ => [], fun _ _ => true, 50, 70⟩

/-- Witness for the amended C7: a complete, stable driver passes; a complete
driver with differing height samples fails the stability check with the
screenshot diagnostic. -/
theorem page_load_error_flow_witness :
    wait_for_full_page_load loadedDriver 15 = ([], .ok true) ∧
    wait_for_full_page_load shiftingDriver 15 =
      (["page_load_failed"], .error "Ошибка загрузки страницы: DOM не стабилен") :=
  ⟨(page_load_error_flow loadedDriver 15).2.2.2 ⟨0, Nat.zero_le _, rfl⟩ rfl,
   (page_load_error_flow shiftingDriver 15).2.2.1 ⟨0, Nat.zero_le _, rfl⟩
     (by decide)⟩

/-- Claim C9: the `after_scenario` teardown hook — which the scenario runner
invokes on every exit path, whatever the step outcome — quits the browser
session whenever the context holds one (`hasattr(context, "driver")`), and is
a harmless no-op when no session was ever created. -/
theorem teardown_quits_session_on_every_exit (ctx : BContext)
    (stepsOutcome : Except String Unit) (s : Session) :
    (ctx.driver = some s → (runScenarioEnd ctx stepsOutcome).1 = ⟨some ⟨true⟩⟩) ∧
    (ctx.driver = none → (runScenarioEnd ctx stepsOutcome).1 = ctx) := by
  cases h : ctx.driver <;>
    simp [runScenarioEnd, after_scenario, h]

/-- Witness for C9: a context with a live session is quit even when the steps
failed an assertion, and a context without a session passes through teardown
unchanged. -/
theorem teardown_quits_session_on_every_exit_witness :
    (runScenarioEnd ⟨some ⟨false⟩⟩ (.error "AssertionError")).1 = ⟨some ⟨true⟩⟩ ∧
    (runScenarioEnd ⟨none⟩ (.ok ())).1 = ⟨none⟩ :=
  ⟨(teardown_quits_session_on_every_exit ⟨some ⟨false⟩⟩ (.error "AssertionError")
      ⟨false⟩).1 rfl,
   (teardown_quits_session_on_every_exit ⟨none⟩ (.ok ()) ⟨false⟩).2 rfl⟩
